import Mathlib

/-!
Verification of the scenario-classification engine in `src/app.py`.

The Python program works on pandas series of floats in which a missing
moving-average value is NaN, and every comparison involving NaN is false.
The shallow embedding models a float cell as `Option ℚ` (`none` = NaN):
the comparison helpers `ogt`/`olt` return `false` as soon as one operand
is `none`, exactly matching NaN comparison semantics, and the arithmetic
helpers `omul`/`oneg`/`osub` propagate `none` exactly as NaN propagates.
Dates are modelled as integer day ordinals (Python subtracts two `date`
values and reads `.days`, which is the difference of the ordinals).
-/

namespace CheckTech

/-- One trading day of the downloaded price history: its date (as a day
ordinal) and its closing price. -/
structure PriceBar where
  date : Int
  close : ℚ
deriving DecidableEq, Inhabited

/-- One row of the indicator-augmented frame built in `analyze_stock`
(lines 91-97 of `src/app.py`): the close plus the four rolling means and
the day-over-day difference of MA20, each `none` when pandas leaves NaN. -/
structure IndicatorBar where
  date : Int
  close : ℚ
  ma5 : Option ℚ
  ma10 : Option ℚ
  ma20 : Option ℚ
  ma60 : Option ℚ
  ma20_slope_val : Option ℚ
deriving DecidableEq, Inhabited

/-- Float comparison `a > b` under NaN semantics: false when either side
is NaN (`none`). -/
def ogt : Option ℚ → Option ℚ → Bool
  | some a, some b => decide (b < a)
  | _, _ => false

/-- Float comparison `a < b` under NaN semantics: false when either side
is NaN (`none`). -/
def olt : Option ℚ → Option ℚ → Bool
  | some a, some b => decide (a < b)
  | _, _ => false

/-- Multiplication of a float cell by a constant; NaN propagates. -/
def omul (a : Option ℚ) (c : ℚ) : Option ℚ := a.map (· * c)

/-- Negation of a float cell; NaN propagates. -/
def oneg (a : Option ℚ) : Option ℚ := a.map (fun x => -x)

/-- Subtraction of float cells; NaN propagates. -/
def osub : Option ℚ → Option ℚ → Option ℚ
  | some a, some b => some (a - b)
  | _, _ => none

/-- The 12-entry dictionary `scenarios` of `get_scenario_analysis`
(lines 20-38 of `src/app.py`), keyed by the three label strings, mapping
to `(ID, description, action conclusion, status tag)`. -/
def scenarios : List ((String × String × String) × (Nat × String × String × String)) :=
  [ (("上彎", "之上", "多頭排列"), (1, "主升段 / 強勢股", "【最強多頭】最佳買點或續抱，拉回不破均線皆是買點。", "🟢 多頭")),
    (("上彎", "之上", "無"), (2, "初升段 / 震盪走高", "【震盪盤堅】短期強勢，但長線架構未成，短多操作。", "🟡 震盪偏多")),
    (("上彎", "之下", "多頭排列"), (3, "回檔修正 (黃金坑)", "【找買點】俗稱回馬槍。趨勢仍好僅股價回檔，找支撐低接。", "🟢 多頭回檔")),
    (("上彎", "之下", "無"), (4, "多頭轉弱 / 做頭", "【多單離場】上方無保護，趨勢可能轉弱。", "🟠 轉弱警戒")),
    (("持平", "之上", "多頭排列"), (5, "強勢整理 / 蓄勢", "【準備噴出】賣壓消化完畢，突破前兆。", "🟢 蓄勢待發")),
    (("持平", "之上", "無"), (6, "箱型整理 (區間上緣)", "【觀望/短打】隨時可能被打回箱型下緣，防假突破。", "⚪ 盤整觀望")),
    (("持平", "之下", "多頭排列"), (7, "假跌破 / 深度洗盤", "【觀察支撐】需在3日內站回，否則破壞結構。", "🟠 觀察支撐")),
    (("持平", "之下", "無"), (8, "弱勢整理 (區間下緣)", "【偏空看待】無支撐力，容易演變成續跌。", "🔴 盤整偏空")),
    (("下彎", "之上", "多頭排列"), (9, "矛盾 / 極端V轉", "【罕見/警戒】極短線暴漲，留意劇烈波動 (理論矛盾區)。", "🟣 特殊情境")),
    (("下彎", "之上", "無"), (10, "空頭反彈 (逃命波)", "【找賣點】蓋頭反壓，容易誘多殺多。", "🔴 空頭反彈")),
    (("下彎", "之下", "多頭排列"), (11, "矛盾 / 急殺", "【結構破壞】多頭遭崩盤式急殺，趨勢毀滅開始 (理論矛盾區)。", "🟣 特殊情境")),
    (("下彎", "之下", "無"), (12, "主跌段 / 空頭排列", "【絕對空頭】趨勢向下、均線壓制，切勿接刀。", "⚫ 絕對空頭")) ]

/-- The id-0 record returned by the `.get` default of `get_scenario_analysis`
(line 40 of `src/app.py`). -/
def unknown_scenario : Nat × String × String × String :=
  (0, "未知情境", "無法判斷", "⚪ 未知")

/-- `get_scenario_analysis(slope, position, alignment)` of `src/app.py`
(lines 10-40): a dictionary lookup on the 3-tuple of label strings with
the id-0 record as defensive default. -/
def get_scenario_analysis (slope position alignment : String) : Nat × String × String × String :=
  (scenarios.lookup (slope, position, alignment)).getD unknown_scenario

/-- Rolling mean with window `n`, as `Series.rolling(window=n).mean()`
computes it: entry `i` is the mean of entries `i+1-n .. i` when at least
`n` entries are available, NaN (`none`) otherwise. -/
def rolling_mean (n : Nat) (xs : List ℚ) : List (Option ℚ) :=
  (List.range xs.length).map fun i =>
    if n ≤ i + 1 then some (((xs.take (i + 1)).drop (i + 1 - n)).sum / n) else none

/-- `Series.diff()` on a float column: entry `i` is entry `i` minus
entry `i-1`, NaN for the first entry and whenever either operand is NaN. -/
def diff_col (xs : List (Option ℚ)) : List (Option ℚ) :=
  (List.range xs.length).map fun i =>
    match i with
    | 0 => none
    | j + 1 => osub (xs.getD (j + 1) none) (xs.getD j none)

/-- The indicator preparation of `analyze_stock` (lines 91-97 of
`src/app.py`): MA5/MA10/MA20/MA60 as rolling means of the close column
and `MA20_Slope_Val` as the diff of the MA20 column, joined back to the
dates and closes row by row. -/
def compute_indicators (bars : List PriceBar) : List IndicatorBar :=
  let closes := bars.map PriceBar.close
  let m5 := rolling_mean 5 closes
  let m10 := rolling_mean 10 closes
  let m20 := rolling_mean 20 closes
  let m60 := rolling_mean 60 closes
  let slope := diff_col m20
  (List.range bars.length).map fun i =>
    { date := (bars.getD i default).date
      close := (bars.getD i default).close
      ma5 := m5.getD i none
      ma10 := m10.getD i none
      ma20 := m20.getD i none
      ma60 := m60.getD i none
      ma20_slope_val := slope.getD i none }

/-- Determination A of `analyze_stock` (lines 116-123): the MA20 slope
label, with threshold `ma20 * 0.0005`; if `slope_val > threshold` then
"上彎" (up), elif `slope_val < -threshold` then "下彎" (down), else
"持平" (flat). NaN comparisons are false, so either operand being NaN
falls through to "持平". -/
def slope_label (ma20 slope_val : Option ℚ) : String :=
  let slope_threshold := omul ma20 0.0005
  if ogt slope_val slope_threshold then "上彎"
  else if olt slope_val (oneg slope_threshold) then "下彎"
  else "持平"

/-- Determination B of `analyze_stock` (line 126): "之上" (above) if
`close > ma20` else "之下" (below); NaN comparison is false, so an absent
MA20 falls through to "之下". -/
def position_label (close : ℚ) (ma20 : Option ℚ) : String :=
  if ogt (some close) ma20 then "之上" else "之下"

/-- Determination C of `analyze_stock` (lines 129-132): "多頭排列"
(bullish alignment) if `ma5 > ma10 and ma10 > ma20 and ma20 > ma60`,
else "無"; any NaN operand makes its comparison false. -/
def alignment_label (ma5 ma10 ma20 ma60 : Option ℚ) : String :=
  if ogt ma5 ma10 && ogt ma10 ma20 && ogt ma20 ma60 then "多頭排列" else "無"

/-- One row of the `results` list built in `analyze_stock` (lines
137-148): date, close, the scenario record fields and the three raw
labels. -/
structure ResultRow where
  date : Int
  close : ℚ
  tag : String
  sid : Nat
  desc : String
  conclusion : String
  slope_status : String
  pos_status : String
  align_status : String
deriving DecidableEq

/-- The per-bar body of the loop in `analyze_stock` (lines 111-148):
derive the three labels, look the triple up in the scenario table and
assemble the result row. -/
def make_row (b : IndicatorBar) : ResultRow :=
  let s := slope_label b.ma20 b.ma20_slope_val
  let p := position_label b.close b.ma20
  let a := alignment_label b.ma5 b.ma10 b.ma20 b.ma60
  let r := get_scenario_analysis s p a
  { date := b.date
    close := b.close
    tag := r.2.2.2
    sid := r.1
    desc := r.2.1
    conclusion := r.2.2.1
    slope_status := s
    pos_status := p
    align_status := a }

/-- The classification core of `analyze_stock` (lines 90-148): compute
the indicators over the full fetched history, restrict to the rows whose
date lies in `[start_date, end_date]` (the mask of line 101), and build
one result row per remaining bar, in frame order. An empty restriction
yields the empty result list (the early-return warning of line 105). -/
def analyze_stock_core (bars : List PriceBar) (start_date end_date : Int) : List ResultRow :=
  let ibars := compute_indicators bars
  let target := ibars.filter fun b => decide (start_date ≤ b.date) && decide (b.date ≤ end_date)
  target.map make_row

/-- Outcome of the date validation in `main` (lines 64-72 of
`src/app.py`). -/
inductive WindowCheck where
  | too_long
  | bad_order
  | proceed
deriving DecidableEq

/-- The date validation in `main` (lines 64-72): `date_diff` is
`(end_input - start_input).days`; the request is rejected when
`date_diff > 10`, then when `date_diff < 0`, and otherwise
`analyze_stock` is invoked. -/
def window_check (start_input end_input : Int) : WindowCheck :=
  let date_diff := end_input - start_input
  if date_diff > 10 then WindowCheck.too_long
  else if date_diff < 0 then WindowCheck.bad_order
  else WindowCheck.proceed

/-! Spec-side definitions, used to state the refinement claims.  They
follow the wording of the specification and are compared with the
definitions above, which are translated from the source. -/

/-- SlopeDirection of spec §3, together with the label string the
classifier emits for it. -/
inductive SlopeDirection where
  | up
  | flat
  | down
deriving DecidableEq

/-- The label string the classifier emits for each SlopeDirection. -/
def SlopeDirection.label : SlopeDirection → String
  | SlopeDirection.up => "上彎"
  | SlopeDirection.flat => "持平"
  | SlopeDirection.down => "下彎"

/-- PricePosition of spec §3. -/
inductive PricePosition where
  | above
  | below
deriving DecidableEq

/-- The label string the classifier emits for each PricePosition. -/
def PricePosition.label : PricePosition → String
  | PricePosition.above => "之上"
  | PricePosition.below => "之下"

/-- Alignment of spec §3 (`no_align` is the spec's None). -/
inductive Alignment where
  | bullish
  | no_align
deriving DecidableEq

/-- The label string the classifier emits for each Alignment. -/
def Alignment.label : Alignment → String
  | Alignment.bullish => "多頭排列"
  | Alignment.no_align => "無"

/-- The ID column of the decision table in spec §4.2, row by row. -/
def spec_table_id : SlopeDirection → PricePosition → Alignment → Nat
  | SlopeDirection.up, PricePosition.above, Alignment.bullish => 1
  | SlopeDirection.up, PricePosition.above, Alignment.no_align => 2
  | SlopeDirection.up, PricePosition.below, Alignment.bullish => 3
  | SlopeDirection.up, PricePosition.below, Alignment.no_align => 4
  | SlopeDirection.flat, PricePosition.above, Alignment.bullish => 5
  | SlopeDirection.flat, PricePosition.above, Alignment.no_align => 6
  | SlopeDirection.flat, PricePosition.below, Alignment.bullish => 7
  | SlopeDirection.flat, PricePosition.below, Alignment.no_align => 8
  | SlopeDirection.down, PricePosition.above, Alignment.bullish => 9
  | SlopeDirection.down, PricePosition.above, Alignment.no_align => 10
  | SlopeDirection.down, PricePosition.below, Alignment.bullish => 11
  | SlopeDirection.down, PricePosition.below, Alignment.no_align => 12

/-- Spec §4.1: `MA_N(bar i)` is the arithmetic mean of close over the N
bars ending at and including bar `i`, absent when fewer than N bars
(including bar `i`) are available. -/
def ma_spec (n : Nat) (bars : List PriceBar) (i : Nat) : Option ℚ :=
  if n ≤ i + 1 then
    some ((((bars.drop (i + 1 - n)).take n).map PriceBar.close).sum / n)
  else none

/-- Spec §4.1: `MA20Slope(bar)` is MA20 of the bar minus MA20 of the
immediately preceding bar, absent if either operand is absent (and for
the very first bar, which has no predecessor). -/
def slope_spec (bars : List PriceBar) : Nat → Option ℚ
  | 0 => none
  | j + 1 => osub (ma_spec 20 bars (j + 1)) (ma_spec 20 bars j)

/-- The IndicatorBar that spec §4.1 prescribes at position `i` of the
series: the PriceBar's own date and close together with the four
spec-side means and the spec-side slope. -/
def indicator_at (bars : List PriceBar) (i : Nat) : IndicatorBar :=
  { date := (bars.getD i default).date
    close := (bars.getD i default).close
    ma5 := ma_spec 5 bars i
    ma10 := ma_spec 10 bars i
    ma20 := ma_spec 20 bars i
    ma60 := ma_spec 60 bars i
    ma20_slope_val := slope_spec bars i }

/-! Helper lemmas about the NaN-aware comparisons and the three label
functions. -/

lemma ogt_none_left (b : Option ℚ) : ogt none b = false := by cases b <;> rfl

lemma ogt_none_right (a : Option ℚ) : ogt a none = false := by cases a <;> rfl

lemma olt_none_left (b : Option ℚ) : olt none b = false := by cases b <;> rfl

lemma olt_none_right (a : Option ℚ) : olt a none = false := by cases a <;> rfl

/-- `slope_label` on two present values compares against the threshold
`ma20 * 0.0005`. -/
lemma slope_label_some (m sv : ℚ) :
    slope_label (some m) (some sv) =
      if m * 0.0005 < sv then "上彎"
      else if sv < -(m * 0.0005) then "下彎"
      else "持平" := by
  unfold slope_label omul oneg ogt olt
  simp only [Option.map_some']
  by_cases h1 : m * 0.0005 < sv <;> by_cases h2 : sv < -(m * 0.0005) <;>
    simp [h1, h2]

/-- If MA20 or the slope value is absent, every comparison in
`slope_label` is false and the label falls through to "持平". -/
lemma slope_label_of_none (m sv : Option ℚ) (h : m = none ∨ sv = none) :
    slope_label m sv = "持平" := by
  rcases h with h | h <;> subst h
  · simp [slope_label, omul, oneg, ogt_none_right, olt_none_right]
  · simp [slope_label, ogt_none_left, olt_none_left]

/-- `position_label` on a present MA20 is a strict comparison of the
close against it. -/
lemma position_label_some (c m : ℚ) :
    position_label c (some m) = if m < c then "之上" else "之下" := by
  unfold position_label ogt
  by_cases h : m < c <;> simp [h]

/-- `position_label` on an absent MA20 falls through to "之下". -/
lemma position_label_of_none (c : ℚ) : position_label c none = "之下" := by
  unfold position_label
  rw [ogt_none_right]
  rfl

/-- `alignment_label` on four present values is the strict chain of the
three comparisons. -/
lemma alignment_label_some (a5 a10 a20 a60 : ℚ) :
    alignment_label (some a5) (some a10) (some a20) (some a60) =
      if a10 < a5 ∧ a20 < a10 ∧ a60 < a20 then "多頭排列" else "無" := by
  unfold alignment_label ogt
  by_cases h1 : a10 < a5 <;> by_cases h2 : a20 < a10 <;> by_cases h3 : a60 < a20 <;>
    simp [h1, h2, h3]

/-- `alignment_label` is "多頭排列" exactly when all four averages are
present and strictly decreasing from MA5 down to MA60. -/
lemma alignment_label_eq_bullish_iff (m5 m10 m20 m60 : Option ℚ) :
    alignment_label m5 m10 m20 m60 = "多頭排列" ↔
      ∃ a5 a10 a20 a60, m5 = some a5 ∧ m10 = some a10 ∧ m20 = some a20 ∧ m60 = some a60 ∧
        a10 < a5 ∧ a20 < a10 ∧ a60 < a20 := by
  have hne : ("無" : String) ≠ "多頭排列" := by decide
  rcases m5 with _ | a5 <;> rcases m10 with _ | a10 <;> rcases m20 with _ | a20 <;>
    rcases m60 with _ | a60 <;>
    simp [alignment_label, ogt, hne]

/-- `alignment_label` returns one of exactly two strings. -/
lemma alignment_label_cases (m5 m10 m20 m60 : Option ℚ) :
    alignment_label m5 m10 m20 m60 = "多頭排列" ∨ alignment_label m5 m10 m20 m60 = "無" := by
  unfold alignment_label
  split <;> simp

/-- `slope_label` returns one of exactly three strings. -/
lemma slope_label_cases (m sv : Option ℚ) :
    slope_label m sv = "上彎" ∨ slope_label m sv = "下彎" ∨ slope_label m sv = "持平" := by
  simp only [slope_label]
  split
  · simp
  · split <;> simp

/-- `position_label` returns one of exactly two strings. -/
lemma position_label_cases (c : ℚ) (m : Option ℚ) :
    position_label c m = "之上" ∨ position_label c m = "之下" := by
  unfold position_label
  split <;> simp

/-- `alignment_label` with an absent MA60 is "無". -/
lemma alignment_label_of_none60 (m5 m10 m20 : Option ℚ) :
    alignment_label m5 m10 m20 none = "無" := by
  unfold alignment_label
  rw [ogt_none_right]
  simp

/-- `alignment_label` with an absent MA20 is "無". -/
lemma alignment_label_of_none20 (m5 m10 m60 : Option ℚ) :
    alignment_label m5 m10 none m60 = "無" := by
  unfold alignment_label
  rw [ogt_none_right, ogt_none_left]
  simp

/-- Projections of `make_row`: the row carries the bar's date and close
and the three labels, and its scenario fields come from the table
lookup on those labels. -/
lemma make_row_fields (b : IndicatorBar) :
    (make_row b).date = b.date ∧ (make_row b).close = b.close ∧
    (make_row b).slope_status = slope_label b.ma20 b.ma20_slope_val ∧
    (make_row b).pos_status = position_label b.close b.ma20 ∧
    (make_row b).align_status = alignment_label b.ma5 b.ma10 b.ma20 b.ma60 ∧
    (make_row b).sid = (get_scenario_analysis (slope_label b.ma20 b.ma20_slope_val)
      (position_label b.close b.ma20) (alignment_label b.ma5 b.ma10 b.ma20 b.ma60)).1 :=
  ⟨rfl, rfl, rfl, rfl, rfl, rfl⟩

/-- The lookup at any of the 12 label triples the classifier can emit
yields an id between 1 and 12. -/
lemma get_scenario_sid_bounds (s p a : String)
    (hs : s = "上彎" ∨ s = "下彎" ∨ s = "持平")
    (hp : p = "之上" ∨ p = "之下")
    (ha : a = "多頭排列" ∨ a = "無") :
    1 ≤ (get_scenario_analysis s p a).1 ∧ (get_scenario_analysis s p a).1 ≤ 12 := by
  rcases hs with rfl | rfl | rfl <;> rcases hp with rfl | rfl <;> rcases ha with rfl | rfl <;>
    decide

/-- Every row the classifier builds carries a scenario id between 1 and
12: the three labels are always among the 12 table keys. -/
lemma make_row_sid_bounds (b : IndicatorBar) :
    1 ≤ (make_row b).sid ∧ (make_row b).sid ≤ 12 :=
  get_scenario_sid_bounds _ _ _ (slope_label_cases _ _) (position_label_cases _ _)
    (alignment_label_cases _ _ _ _)

/-! Helper lemmas characterising the Preparator columns. -/

lemma length_rolling_mean (n : Nat) (xs : List ℚ) : (rolling_mean n xs).length = xs.length := by
  simp [rolling_mean]

lemma length_diff_col (xs : List (Option ℚ)) : (diff_col xs).length = xs.length := by
  simp [diff_col]

lemma length_compute_indicators (bars : List PriceBar) :
    (compute_indicators bars).length = bars.length := by
  simp [compute_indicators]

lemma rolling_mean_getD (n : Nat) (xs : List ℚ) (i : Nat) (h : i < xs.length) :
    (rolling_mean n xs).getD i none =
      if n ≤ i + 1 then some (((xs.take (i + 1)).drop (i + 1 - n)).sum / n) else none := by
  simp only [rolling_mean, List.getD_eq_getElem?_getD, List.getElem?_map,
    List.getElem?_range h, Option.map_some', Option.getD_some]

lemma diff_col_getD_zero (xs : List (Option ℚ)) (h : 0 < xs.length) :
    (diff_col xs).getD 0 none = none := by
  simp only [diff_col, List.getD_eq_getElem?_getD, List.getElem?_map, List.getElem?_range h,
    Option.map_some', Option.getD_some]

lemma diff_col_getD_succ (xs : List (Option ℚ)) (j : Nat) (h : j + 1 < xs.length) :
    (diff_col xs).getD (j + 1) none = osub (xs.getD (j + 1) none) (xs.getD j none) := by
  simp only [diff_col, List.getD_eq_getElem?_getD, List.getElem?_map, List.getElem?_range h,
    Option.map_some', Option.getD_some]

/-- pandas' rolling mean of the close column agrees with the spec's
trailing-window mean at every index. -/
lemma rolling_mean_eq_ma_spec (n : Nat) (bars : List PriceBar) (i : Nat) (h : i < bars.length) :
    (rolling_mean n (bars.map PriceBar.close)).getD i none = ma_spec n bars i := by
  rw [rolling_mean_getD n _ i (by simpa using h)]
  unfold ma_spec
  by_cases hn : n ≤ i + 1
  · rw [if_pos hn, if_pos hn]
    have hwin : ((bars.map PriceBar.close).take (i + 1)).drop (i + 1 - n) =
        ((bars.drop (i + 1 - n)).take n).map PriceBar.close := by
      rw [← List.map_take, ← List.map_drop, List.drop_take]
      congr 2
      omega
    rw [hwin]
  · rw [if_neg hn, if_neg hn]

/-- pandas' diff of the MA20 column agrees with the spec's MA20Slope at
every index. -/
lemma diff_rolling_eq_slope_spec (bars : List PriceBar) (i : Nat) (h : i < bars.length) :
    (diff_col (rolling_mean 20 (bars.map PriceBar.close))).getD i none = slope_spec bars i := by
  have hlen : (rolling_mean 20 (bars.map PriceBar.close)).length = bars.length := by
    simp [rolling_mean]
  cases i with
  | zero => rw [diff_col_getD_zero _ (by rw [hlen]; exact h)]; rfl
  | succ j =>
      rw [diff_col_getD_succ _ j (by rw [hlen]; exact h),
        rolling_mean_eq_ma_spec 20 bars (j + 1) h,
        rolling_mean_eq_ma_spec 20 bars j (by omega)]
      rfl

/-- The Preparator equals the position-wise spec characterisation. -/
lemma compute_indicators_eq_map (bars : List PriceBar) :
    compute_indicators bars = (List.range bars.length).map (indicator_at bars) := by
  simp only [compute_indicators]
  apply List.map_congr_left
  intro i hi
  rw [List.mem_range] at hi
  simp only [indicator_at, IndicatorBar.mk.injEq]
  exact ⟨trivial, trivial, rolling_mean_eq_ma_spec 5 bars i hi, rolling_mean_eq_ma_spec 10 bars i hi,
    rolling_mean_eq_ma_spec 20 bars i hi, rolling_mean_eq_ma_spec 60 bars i hi,
    diff_rolling_eq_slope_spec bars i hi⟩

lemma compute_indicators_getElem? (bars : List PriceBar) (i : Nat) (h : i < bars.length) :
    (compute_indicators bars)[i]? = some (indicator_at bars i) := by
  rw [compute_indicators_eq_map, List.getElem?_map, List.getElem?_range h, Option.map_some']

lemma mem_compute_indicators (bars : List PriceBar) (ib : IndicatorBar)
    (h : ib ∈ compute_indicators bars) : ∃ i, i < bars.length ∧ ib = indicator_at bars i := by
  rw [compute_indicators_eq_map] at h
  obtain ⟨i, hi, h2⟩ := List.mem_map.1 h
  exact ⟨i, List.mem_range.1 hi, h2.symm⟩

/-- The Preparator preserves the (date, close) column pair of the input
series, element by element. -/
lemma compute_indicators_map_dc (bars : List PriceBar) :
    (compute_indicators bars).map (fun ib => (ib.date, ib.close)) =
      bars.map (fun b => (b.date, b.close)) := by
  apply List.ext_getElem?
  intro i
  by_cases h : i < bars.length
  · rw [List.getElem?_map, List.getElem?_map, compute_indicators_getElem? bars i h,
      List.getElem?_eq_getElem h, Option.map_some', Option.map_some']
    simp [indicator_at, List.getD_eq_getElem?_getD, List.getElem?_eq_getElem h]
  · have h1 : (compute_indicators bars).length ≤ i := by
      rw [length_compute_indicators]
      omega
    rw [List.getElem?_map, List.getElem?_map, List.getElem?_eq_none h1,
      List.getElem?_eq_none (by omega), Option.map_none', Option.map_none']

/-- Filtering to a date window commutes with projecting to the (date,
close) pair: two lists with the same (date, close) columns restrict to
the same (date, close) columns. -/
lemma filter_window_map_dc (s e : Int) (l1 : List IndicatorBar) :
    ∀ l2 : List PriceBar,
      l1.map (fun ib => (ib.date, ib.close)) = l2.map (fun b => (b.date, b.close)) →
      (l1.filter fun ib => decide (s ≤ ib.date) && decide (ib.date ≤ e)).map
          (fun ib => (ib.date, ib.close)) =
        (l2.filter fun b => decide (s ≤ b.date) && decide (b.date ≤ e)).map
          (fun b => (b.date, b.close)) := by
  induction l1 with
  | nil =>
      intro l2 h
      cases l2 with
      | nil => rfl
      | cons b t => simp at h
  | cons ib t1 ih =>
      intro l2 h
      cases l2 with
      | nil => simp at h
      | cons b t2 =>
          simp only [List.map_cons, List.cons.injEq] at h
          obtain ⟨hpair, htail⟩ := h
          have hdate : ib.date = b.date := congrArg Prod.fst hpair
          have hclose : ib.close = b.close := congrArg Prod.snd hpair
          simp only [List.filter_cons, hdate]
          by_cases hw : (decide (s ≤ b.date) && decide (b.date ≤ e)) = true
          · rw [if_pos hw, if_pos hw]
            simp only [List.map_cons, hdate, hclose]
            rw [ih t2 htail]
          · rw [if_neg hw, if_neg hw]
            exact ih t2 htail

/-- `alignment_label` with an absent MA5 is "無". -/
lemma alignment_label_of_none5 (m10 m20 m60 : Option ℚ) :
    alignment_label none m10 m20 m60 = "無" := by
  unfold alignment_label
  rw [ogt_none_left]
  simp

/-- `alignment_label` with an absent MA10 is "無". -/
lemma alignment_label_of_none10 (m5 m20 m60 : Option ℚ) :
    alignment_label m5 none m20 m60 = "無" := by
  unfold alignment_label
  rw [ogt_none_right, ogt_none_left]
  simp

/-! The end-to-end fixture of spec §8: 65 trading days flat at close
100, with day ordinals 1 through 65. -/

/-- 65 daily bars with constant close 100. -/
def const_series : List PriceBar :=
  (List.range 65).map fun i : Nat => { date := (i : Int) + 1, close := 100 }

lemma const_series_length : const_series.length = 65 := by
  rw [const_series, List.length_map, List.length_range]

lemma const_series_closes : const_series.map PriceBar.close = List.replicate 65 (100 : ℚ) := by
  rw [const_series, List.map_map]
  apply List.eq_replicate_iff.2
  refine ⟨by rw [List.length_map, List.length_range], ?_⟩
  intro b hb
  obtain ⟨i, hi, h⟩ := List.mem_map.1 hb
  exact h.symm

/-- On the constant series, every defined trailing mean is 100. -/
lemma ma_spec_const (n i : Nat) (h0 : 0 < n) (hn : n ≤ i + 1) (hi : i < 65) :
    ma_spec n const_series i = some 100 := by
  unfold ma_spec
  rw [if_pos hn]
  have hwin : ((const_series.drop (i + 1 - n)).take n).map PriceBar.close
      = List.replicate n (100 : ℚ) := by
    rw [List.map_take, List.map_drop, const_series_closes, List.drop_replicate,
      List.take_replicate]
    congr 1
    omega
  have hne : (n : ℚ) ≠ 0 := Nat.cast_ne_zero.2 h0.ne'
  rw [hwin, List.sum_replicate, nsmul_eq_mul, mul_comm, mul_div_assoc, div_self hne, mul_one]

/-- On the constant series, the MA20 slope of the final bar is 0. -/
lemma slope_spec_const64 : slope_spec const_series 64 = some 0 := by
  show osub (ma_spec 20 const_series 64) (ma_spec 20 const_series 63) = some 0
  rw [ma_spec_const 20 64 (by norm_num) (by norm_num) (by norm_num),
    ma_spec_const 20 63 (by norm_num) (by norm_num) (by norm_num)]
  simp [osub]

/-- The final indicator bar of the constant series: every average is
100 and the slope is 0. -/
lemma indicator_at_const64 :
    indicator_at const_series 64 =
      ⟨65, 100, some 100, some 100, some 100, some 100, some 0⟩ := by
  unfold indicator_at
  rw [ma_spec_const 5 64 (by norm_num) (by norm_num) (by norm_num),
    ma_spec_const 10 64 (by norm_num) (by norm_num) (by norm_num),
    ma_spec_const 20 64 (by norm_num) (by norm_num) (by norm_num),
    ma_spec_const 60 64 (by norm_num) (by norm_num) (by norm_num),
    slope_spec_const64]
  have hd : const_series.getD 64 default = (⟨65, 100⟩ : PriceBar) := rfl
  rw [hd]

/-! Claim theorems. -/

/-- Claim C1: for every one of the 12 combinations of (SlopeDirection,
PricePosition, Alignment), the dictionary lookup of
`get_scenario_analysis` finds the key (so the defensive default is not
taken) and returns the table entry whose id is exactly the ID column of
the decision table in spec §4.2 (1 through 12); no combination returns
the id-0 fallback record. The description/guidance/tag strings are the
code's own, of which the spec table is the English rendering. -/
theorem c1_lookup_table_total :
    ∀ (s : SlopeDirection) (p : PricePosition) (a : Alignment),
      scenarios.lookup (s.label, p.label, a.label) =
        some (get_scenario_analysis s.label p.label a.label) ∧
      (get_scenario_analysis s.label p.label a.label).1 = spec_table_id s p a ∧
      get_scenario_analysis s.label p.label a.label ≠ unknown_scenario := by
  intro s p a
  cases s <;> cases p <;> cases a <;> decide

/-- Witness for C1 at the first table row: (Up, Above, Bullish) has
id 1. -/
theorem c1_witness : (get_scenario_analysis "上彎" "之上" "多頭排列").1 = 1 :=
  (c1_lookup_table_total SlopeDirection.up PricePosition.above Alignment.bullish).2.1

/-- Claim C2 is refuted by the code: a bar with every indicator absent —
the situation of a bar classified without the required lead-in history —
does not make the classification fail. It is classified
("持平", "之下", "無") and receives the regular id-8 record: a silent
default, not a loud failure. -/
theorem c2_counterexample :
    (⟨0, 100, none, none, none, none, none⟩ : IndicatorBar).ma20 = none ∧
    make_row ⟨0, 100, none, none, none, none, none⟩ =
      { date := 0, close := 100, tag := "🔴 盤整偏空", sid := 8,
        desc := "弱勢整理 (區間下緣)", conclusion := "【偏空看待】無支撐力，容易演變成續跌。",
        slope_status := "持平", pos_status := "之下", align_status := "無" } :=
  ⟨rfl, rfl⟩

/-- Claim C2 (amended): for every bar classified without the required
lead-in (MA20 or MA20Slope absent), the absent value propagates as NaN
whose comparisons are all false, and the classification does not fail:
the slope label silently defaults to "持平", and when MA20 is absent the
position and alignment labels default to "之下" and "無"; the bar still
receives a regular scenario record with id between 1 and 12. -/
theorem c2_silent_default (b : IndicatorBar)
    (h : b.ma20 = none ∨ b.ma20_slope_val = none) :
    slope_label b.ma20 b.ma20_slope_val = "持平" ∧
    (b.ma20 = none → position_label b.close b.ma20 = "之下" ∧
      alignment_label b.ma5 b.ma10 b.ma20 b.ma60 = "無") ∧
    1 ≤ (make_row b).sid ∧ (make_row b).sid ≤ 12 := by
  refine ⟨slope_label_of_none _ _ h, fun h20 => ?_, make_row_sid_bounds b⟩
  rw [h20]
  exact ⟨position_label_of_none _, alignment_label_of_none20 _ _ _⟩

/-- Witness for C2 (amended) at the all-absent bar. -/
theorem c2_witness :
    slope_label (none : Option ℚ) (none : Option ℚ) = "持平" ∧
    1 ≤ (make_row ⟨0, 100, none, none, none, none, none⟩).sid := by
  have h := c2_silent_default ⟨0, 100, none, none, none, none, none⟩ (Or.inl rfl)
  exact ⟨h.1, h.2.2.1⟩

/-- Claim C3: for a bar with MA20 and MA20Slope present (MA20
nonnegative, as a mean of positive closes), the slope label is derived
with threshold MA20 * 0.0005 and strict comparisons: "上彎" (Up) iff
slope > threshold, "下彎" (Down) iff slope < -threshold, "持平" (Flat)
otherwise. -/
theorem c3_slope_threshold (m sv : ℚ) (h0 : 0 ≤ m) :
    (slope_label (some m) (some sv) = "上彎" ↔ m * 0.0005 < sv) ∧
    (slope_label (some m) (some sv) = "下彎" ↔ sv < -(m * 0.0005)) ∧
    (slope_label (some m) (some sv) = "持平" ↔
      ¬ m * 0.0005 < sv ∧ ¬ sv < -(m * 0.0005)) := by
  have ht : 0 ≤ m * 0.0005 := mul_nonneg h0 (by norm_num)
  rw [slope_label_some]
  by_cases h1 : m * 0.0005 < sv
  · have h2 : ¬ sv < -(m * 0.0005) := by linarith
    simp [h1, h2]
  · by_cases h2 : sv < -(m * 0.0005)
    · simp [h1, h2]
    · simp [h1, h2]

/-- Witness for C3 at MA20 = 100: slope exactly +0.05 is "持平",
+0.0501 is "上彎", and -0.0501 is "下彎". -/
theorem c3_witness :
    slope_label (some 100) (some 0.05) = "持平" ∧
    slope_label (some 100) (some 0.0501) = "上彎" ∧
    slope_label (some 100) (some (-0.0501)) = "下彎" :=
  ⟨(c3_slope_threshold 100 0.05 (by norm_num)).2.2.2 (by norm_num),
    (c3_slope_threshold 100 0.0501 (by norm_num)).1.2 (by norm_num),
    (c3_slope_threshold 100 (-0.0501) (by norm_num)).2.1.2 (by norm_num)⟩

/-- Claim C4: with MA20 present, the position label is "之上" (Above)
iff close > MA20 strictly, "之下" (Below) otherwise; a close exactly
equal to MA20 classifies as "之下". -/
theorem c4_price_position (c m : ℚ) :
    (position_label c (some m) = "之上" ↔ m < c) ∧
    (position_label c (some m) = "之下" ↔ ¬ m < c) ∧
    (c = m → position_label c (some m) = "之下") := by
  rw [position_label_some]
  by_cases h : m < c
  · rw [if_pos h]
    exact ⟨⟨fun _ => h, fun _ => rfl⟩,
      ⟨fun hc => absurd hc (by decide), fun hl => absurd h hl⟩,
      fun he => absurd h (by rw [he]; exact lt_irrefl m)⟩
  · rw [if_neg h]
    exact ⟨⟨fun hc => absurd hc (by decide), fun hl => absurd hl h⟩,
      ⟨fun _ => h, fun _ => rfl⟩, fun _ => rfl⟩

/-- Witness for C4: close = MA20 = 100 classifies as "之下". -/
theorem c4_witness : position_label 100 (some 100) = "之下" :=
  (c4_price_position 100 100).2.2 rfl

/-- Claim C5: the alignment label is "多頭排列" (Bullish) iff all four
averages are present and MA5 > MA10 > MA20 > MA60 strictly; equality of
any two adjacent averages gives "無" (None); an absent MA60 gives "無";
and for a series shorter than 60 bars MA60 is absent on every bar, so
every bar's alignment is "無" regardless of the other averages. -/
theorem c5_alignment (m5 m10 m20 m60 : Option ℚ) :
    (alignment_label m5 m10 m20 m60 = "多頭排列" ↔
      ∃ a5 a10 a20 a60, m5 = some a5 ∧ m10 = some a10 ∧ m20 = some a20 ∧ m60 = some a60 ∧
        a10 < a5 ∧ a20 < a10 ∧ a60 < a20) ∧
    (∀ x : ℚ, ((m5 = some x ∧ m10 = some x) ∨ (m10 = some x ∧ m20 = some x) ∨
      (m20 = some x ∧ m60 = some x)) → alignment_label m5 m10 m20 m60 = "無") ∧
    (m60 = none → alignment_label m5 m10 m20 m60 = "無") ∧
    (∀ bars : List PriceBar, bars.length < 60 → ∀ ib ∈ compute_indicators bars,
      ib.ma60 = none ∧ alignment_label ib.ma5 ib.ma10 ib.ma20 ib.ma60 = "無") := by
  refine ⟨alignment_label_eq_bullish_iff m5 m10 m20 m60, ?_, ?_, ?_⟩
  · intro x hx
    rcases alignment_label_cases m5 m10 m20 m60 with hb | hn
    · exfalso
      obtain ⟨a5, a10, a20, a60, e5, e10, e20, e60, l1, l2, l3⟩ :=
        (alignment_label_eq_bullish_iff m5 m10 m20 m60).1 hb
      rcases hx with ⟨hA, hB⟩ | ⟨hA, hB⟩ | ⟨hA, hB⟩
      · have hx5 : a5 = x := by rw [hA] at e5; exact (Option.some.inj e5).symm
        have hx10 : a10 = x := by rw [hB] at e10; exact (Option.some.inj e10).symm
        rw [hx5, hx10] at l1
        exact lt_irrefl x l1
      · have hx10 : a10 = x := by rw [hA] at e10; exact (Option.some.inj e10).symm
        have hx20 : a20 = x := by rw [hB] at e20; exact (Option.some.inj e20).symm
        rw [hx10, hx20] at l2
        exact lt_irrefl x l2
      · have hx20 : a20 = x := by rw [hA] at e20; exact (Option.some.inj e20).symm
        have hx60 : a60 = x := by rw [hB] at e60; exact (Option.some.inj e60).symm
        rw [hx20, hx60] at l3
        exact lt_irrefl x l3
    · exact hn
  · intro h60
    rw [h60]
    exact alignment_label_of_none60 _ _ _
  · intro bars hlen ib hib
    obtain ⟨i, hi, rfl⟩ := mem_compute_indicators bars ib hib
    have h60 : (indicator_at bars i).ma60 = none := by
      show ma_spec 60 bars i = none
      unfold ma_spec
      rw [if_neg (by omega)]
    refine ⟨h60, ?_⟩
    rw [h60]
    exact alignment_label_of_none60 _ _ _

/-- Witness for C5: MA5 = MA10 (adjacent equality) gives "無" even with
MA10 > MA20 > MA60. -/
theorem c5_witness :
    alignment_label (some 100) (some 100) (some 90) (some 80) = "無" :=
  (c5_alignment (some 100) (some 100) (some 90) (some 80)).2.1 100 (Or.inl ⟨rfl, rfl⟩)

/-- Claim C6: the Preparator returns one IndicatorBar per PriceBar in
the same order (same length, and bar i carries the date and close of
input bar i); each MA_N is the arithmetic mean of close over the
trailing N bars ending at and including the bar, absent when fewer than
N bars are available; MA20Slope is MA20 of the bar minus MA20 of the
preceding bar, absent when either operand is absent (in particular on
the first bar); and the empty series yields the empty sequence. -/
theorem c6_preparator_contract (bars : List PriceBar) :
    (compute_indicators bars).length = bars.length ∧
    compute_indicators [] = [] ∧
    ∀ i, i < bars.length → (compute_indicators bars)[i]? = some (indicator_at bars i) :=
  ⟨length_compute_indicators bars, rfl, fun i h => compute_indicators_getElem? bars i h⟩

/-- Witness for C6 on a one-bar series: the single output bar keeps
date and close and has every average and the slope absent. -/
theorem c6_witness :
    (compute_indicators [⟨1, 100⟩])[0]? = some ⟨1, 100, none, none, none, none, none⟩ := by
  have h := (c6_preparator_contract [⟨1, 100⟩]).2.2 0 (by decide)
  rw [h]
  rfl

/-- Claim C7: a request proceeds to analysis iff end ≥ start and
(end - start) ≤ 10 days, and is rejected as a validation error before
the core otherwise; with January 2024 dates as day ordinals,
2024-01-01..2024-01-20 (19 days) is rejected as too long and
2024-01-10..2024-01-05 as invalid order. -/
theorem c7_window_policy :
    (∀ s e : Int, window_check s e = WindowCheck.proceed ↔ s ≤ e ∧ e - s ≤ 10) ∧
    window_check 1 20 = WindowCheck.too_long ∧
    window_check 10 5 = WindowCheck.bad_order := by
  refine ⟨fun s e => ?_, by decide, by decide⟩
  simp only [window_check]
  split_ifs with h1 h2
  · constructor
    · intro hc
      exact absurd hc (by decide)
    · intro hc
      omega
  · constructor
    · intro hc
      exact absurd hc (by decide)
    · intro hc
      omega
  · constructor
    · intro _
      omega
    · intro _
      rfl

/-- Witness for C7: a 5-day window proceeds to analysis. -/
theorem c7_witness : window_check 3 8 = WindowCheck.proceed :=
  (c7_window_policy.1 3 8).2 (by decide)

/-- Claim C8: the analysis computes indicators over the full history and
restricts to exactly the bars whose date lies in [start, end] inclusive,
in input order — the (date, close) column of the result equals that of
the restricted input — with each result row the classification of an
in-window bar of the fully prepared history; and if no bar falls in the
window the result is the empty sequence. -/
theorem c8_orchestration (bars : List PriceBar) (s e : Int) :
    ((analyze_stock_core bars s e).map (fun r => (r.date, r.close)) =
      (bars.filter fun b => decide (s ≤ b.date) && decide (b.date ≤ e)).map
        (fun b => (b.date, b.close))) ∧
    (∀ r ∈ analyze_stock_core bars s e, ∃ ib ∈ compute_indicators bars,
      s ≤ ib.date ∧ ib.date ≤ e ∧ r = make_row ib) ∧
    ((∀ b ∈ bars, ¬ (s ≤ b.date ∧ b.date ≤ e)) → analyze_stock_core bars s e = []) := by
  have hcomp : ((fun r : ResultRow => (r.date, r.close)) ∘ make_row) =
      fun ib : IndicatorBar => (ib.date, ib.close) := rfl
  have hmain : (analyze_stock_core bars s e).map (fun r => (r.date, r.close)) =
      (bars.filter fun b => decide (s ≤ b.date) && decide (b.date ≤ e)).map
        (fun b => (b.date, b.close)) := by
    show (((compute_indicators bars).filter fun ib =>
      decide (s ≤ ib.date) && decide (ib.date ≤ e)).map make_row).map
        (fun r => (r.date, r.close)) = _
    rw [List.map_map, hcomp]
    exact filter_window_map_dc s e (compute_indicators bars) bars
      (compute_indicators_map_dc bars)
  refine ⟨hmain, ?_, ?_⟩
  · intro r hr
    simp only [analyze_stock_core] at hr
    obtain ⟨ib, hib, rfl⟩ := List.mem_map.1 hr
    have hf := List.mem_filter.1 hib
    have hw := hf.2
    simp only [Bool.and_eq_true, decide_eq_true_eq] at hw
    exact ⟨ib, hf.1, hw.1, hw.2, rfl⟩
  · intro hall
    have hfe : (bars.filter fun b => decide (s ≤ b.date) && decide (b.date ≤ e)) = [] := by
      rw [List.filter_eq_nil_iff]
      intro b hb
      simp only [Bool.and_eq_true, decide_eq_true_eq, not_and]
      intro hs he
      exact hall b hb ⟨hs, he⟩
    have hme : (analyze_stock_core bars s e).map (fun r => (r.date, r.close)) = [] := by
      rw [hmain, hfe]
      rfl
    exact List.map_eq_nil_iff.1 hme

/-- Witness for C8 on a one-bar history inside the window. -/
theorem c8_witness :
    (analyze_stock_core [⟨1, 100⟩] 0 2).map (fun r => (r.date, r.close)) = [(1, 100)] := by
  rw [(c8_orchestration [⟨1, 100⟩] 0 2).1]
  rfl

/-- Claim C9: on 65 daily bars with constant close 100, the final bar
classifies as ("持平", "之下", "無") — slope 0 within threshold, close
equal to MA20, all averages equal — and the table lookup yields scenario
id 8. -/
theorem c9_flat_series :
    ((compute_indicators const_series)[64]?).map (fun ib =>
      ((make_row ib).slope_status, (make_row ib).pos_status, (make_row ib).align_status,
        (make_row ib).sid)) = some ("持平", "之下", "無", 8) := by
  rw [compute_indicators_getElem? const_series 64 (by rw [const_series_length]; norm_num),
    indicator_at_const64, Option.map_some']
  have h1 := make_row_fields ⟨65, 100, some 100, some 100, some 100, some 100, some 0⟩
  have hs : slope_label (some (100 : ℚ)) (some (0 : ℚ)) = "持平" := by
    rw [slope_label_some, if_neg (by norm_num), if_neg (by norm_num)]
  have hp : position_label (100 : ℚ) (some (100 : ℚ)) = "之下" := by
    rw [position_label_some, if_neg (by norm_num)]
  have ha : alignment_label (some (100 : ℚ)) (some 100) (some 100) (some 100) = "無" := by
    rw [alignment_label_some, if_neg (by norm_num)]
  simp only [h1.2.2.1, h1.2.2.2.1, h1.2.2.2.2.1, h1.2.2.2.2.2]
  rw [hs, hp, ha]
  decide

/-- Claim C10 is refuted as quantified: a bar with MA60 absent but MA20
and the slope present and clearly positive gets slope label "上彎"
(Up), not the claimed default "持平" (Flat) — absence of one of
MA20/MA20Slope/MA60 does not force all three defaults, only the signals
whose comparisons touch the absent value default. -/
theorem c10_counterexample :
    (⟨0, 120, some 110, some 105, some 100, none, some 1⟩ : IndicatorBar).ma60 = none ∧
    (make_row ⟨0, 120, some 110, some 105, some 100, none, some 1⟩).slope_status = "上彎" := by
  refine ⟨rfl, ?_⟩
  rw [(make_row_fields _).2.2.1]
  show slope_label (some 100) (some 1) = "上彎"
  rw [slope_label_some, if_pos (by norm_num)]

/-- Claim C10 (amended): comparisons involving an absent (NaN)
indicator evaluate false, so classification never fails and the
affected signal defaults: with MA20 or MA20Slope absent the slope label
is "持平"; with MA20 absent the position label is "之下"; with any of
MA5/MA10/MA20/MA60 absent the alignment label is "無"; every bar
receives a regular scenario record with id 1..12, never the id-0
fallback; and with MA20, MA20Slope and MA60 all absent the record is
id 8. -/
theorem c10_nan_defaults (b : IndicatorBar) :
    ((b.ma20 = none ∨ b.ma20_slope_val = none) →
      slope_label b.ma20 b.ma20_slope_val = "持平") ∧
    (b.ma20 = none → position_label b.close b.ma20 = "之下") ∧
    ((b.ma5 = none ∨ b.ma10 = none ∨ b.ma20 = none ∨ b.ma60 = none) →
      alignment_label b.ma5 b.ma10 b.ma20 b.ma60 = "無") ∧
    (1 ≤ (make_row b).sid ∧ (make_row b).sid ≤ 12) ∧
    ((b.ma20 = none ∧ b.ma20_slope_val = none ∧ b.ma60 = none) → (make_row b).sid = 8) := by
  refine ⟨slope_label_of_none _ _, ?_, ?_, make_row_sid_bounds b, ?_⟩
  · intro h
    rw [h]
    exact position_label_of_none _
  · intro h
    rcases h with h | h | h | h
    · rw [h]
      exact alignment_label_of_none5 _ _ _
    · rw [h]
      exact alignment_label_of_none10 _ _ _
    · rw [h]
      exact alignment_label_of_none20 _ _ _
    · rw [h]
      exact alignment_label_of_none60 _ _ _
  · rintro ⟨h20, hsl, h60⟩
    rw [(make_row_fields b).2.2.2.2.2,
      slope_label_of_none b.ma20 b.ma20_slope_val (Or.inl h20), h20, h60,
      position_label_of_none, alignment_label_of_none20]
    decide

/-- Witness for C10 (amended) at the all-absent bar: id 8. -/
theorem c10_witness : (make_row ⟨0, 100, none, none, none, none, none⟩).sid = 8 :=
  (c10_nan_defaults ⟨0, 100, none, none, none, none, none⟩).2.2.2.2 ⟨rfl, rfl, rfl⟩

end CheckTech
